import Mathlib

/-!
# Verification of `scripts/process_downloads.py`

A shallow embedding of the media-download processor: release-name parsing
(the `TV_RE` / `MOVIE_RE` regular expressions and `slug_to_name`), media
discovery (`find_first_rar` / `find_video_files` / `find_large_extensionless`),
the transfer and retirement steps (`ensure_dir`, `move_path`, `extract_rar`,
`unique_recycle_dest`) and the per-item orchestrators
(`process_series_folder`, `process_movie_folder`).

Strings are modelled over `List Char`; the filesystem is an existence oracle
`String → Bool` threaded through the processing functions together with an
explicit trace of effects (log lines, audit events, directory creations,
moves, external-tool invocations).  Character classes of the Python regexes
(`\d`, `\s`, `\b`) and `str.lower`/`str.strip` are modelled over their ASCII
ranges; every release name and path appearing in the claims is ASCII.
-/

set_option autoImplicit false

namespace ProcessDownloads

/-! ## Character and string helpers -/

/-- ASCII whitespace, the ASCII fragment of Python's `\s` / `str.isspace`. -/
def isSpaceChar (c : Char) : Bool :=
  c = ' ' || c = '\t' || c = '\n' || c = '\r' || c = '\x0b' || c = '\x0c'

/-- ASCII decimal digit: the ASCII fragment of the regex class `\d`. -/
def isDigitChar (c : Char) : Bool :=
  c = '0' || c = '1' || c = '2' || c = '3' || c = '4' ||
  c = '5' || c = '6' || c = '7' || c = '8' || c = '9'

/-- Word character for the regex boundary `\b` (ASCII fragment of `\w`). -/
def isWordChar (c : Char) : Bool :=
  c.isAlpha || isDigitChar c || c = '_'

/-- `\b` placed after a word character: holds at end of input or before a
non-word character. -/
def wordBoundary (rest : List Char) : Bool :=
  match rest with
  | [] => true
  | c :: _ => !(isWordChar c)

/-- Embeds `s.replace(".", " ")`. -/
def replaceDots (cs : List Char) : List Char :=
  cs.map fun c => if c = '.' then ' ' else c

/-- Worker for `collapseWS`; the flag records whether the previous character
was whitespace (already emitted as a single `' '`). -/
def collapseWSAux : Bool → List Char → List Char
  | _, [] => []
  | prevSpace, c :: rest =>
    if isSpaceChar c then
      if prevSpace then collapseWSAux true rest
      else ' ' :: collapseWSAux true rest
    else c :: collapseWSAux false rest

/-- Embeds `re.sub(r"\s+", " ", s)`: every maximal whitespace run becomes a
single space. -/
def collapseWS (cs : List Char) : List Char :=
  collapseWSAux false cs

/-- Embeds `str.strip()`: drop leading and trailing whitespace. -/
def stripChars (cs : List Char) : List Char :=
  ((cs.dropWhile isSpaceChar).reverse.dropWhile isSpaceChar).reverse

/-- Embeds `slug_to_name`: `s.replace(".", " ")`, then collapse whitespace
runs, then strip. -/
def slug_to_name (s : String) : String :=
  String.mk (stripChars (collapseWS (replaceDots s.data)))

/-- Numeric value of an ASCII digit character. -/
def digitVal (c : Char) : Nat :=
  c.toNat - '0'.toNat

/-- Embeds Python `int()` on a string of ASCII digits (the only shape the
regex groups can take). -/
def digitsVal (cs : List Char) : Nat :=
  cs.foldl (fun acc c => acc * 10 + digitVal c) 0

/-- Embeds the f-string format `{n:02d}` for a natural number. -/
def pad2 (n : Nat) : String :=
  if n < 10 then "0" ++ toString n else toString n

/-- Embeds the Python slice `s[-n:]`: the last `n` characters (the whole
string when it is shorter). -/
def takeLast (n : Nat) (s : String) : String :=
  String.mk (s.data.drop (s.data.length - n))

/-- Split a character list on a separator character (`str.split(sep)`). -/
def splitOnChar (sep : Char) : List Char → List (List Char)
  | [] => [[]]
  | c :: rest =>
    match splitOnChar sep rest with
    | [] => [[]]
    | g :: gs => if c = sep then [] :: g :: gs else (c :: g) :: gs

/-- Join character lists with a separator character. -/
def joinWithChar (sep : Char) : List (List Char) → List Char
  | [] => []
  | [g] => g
  | g :: gs => g ++ sep :: joinWithChar sep gs

/-- Embeds `pathlib.PurePath.name`: the final path component. -/
def fileName (p : String) : String :=
  String.mk ((splitOnChar '/' p.data).getLastD [])

/-- Embeds `pathlib.PurePath.parent` for the well-formed paths the script
builds: everything before the final component. -/
def parentDir (p : String) : String :=
  String.mk (joinWithChar '/' ((splitOnChar '/' p.data).dropLast))

/-- Embeds `pathlib.PurePath.suffix`: the final `.ext` of the last component,
empty when the last dot is absent, leading, or trailing. -/
def pySuffix (name : String) : String :=
  let cs := name.data
  let post := cs.reverse.takeWhile (fun c => c ≠ '.')
  if post.length = cs.length then ""
  else if post.length = 0 then ""
  else if post.length + 1 = cs.length then ""
  else String.mk ('.' :: post.reverse)

/-- ASCII lower-casing of a string (`str.lower` restricted to ASCII, enough
for the file extensions compared against `VIDEO_EXTS`). -/
def lowerStr (s : String) : String :=
  String.mk (s.data.map Char.toLower)

/-! ## Release-name parsing (`TV_RE`, `MOVIE_RE`)

`TV_RE = ^(?P<show>.+?)(?:\.(?P<year>19\d{2}|20\d{2}))?\.S(?P<season>\d{2})E(?P<ep>\d{2})\b`
(IGNORECASE), `MOVIE_RE = ^(?P<title>.+?)\.(?P<year>19\d{2}|20\d{2})\b`
(IGNORECASE), both used through `re.match`, i.e. anchored at the start.
The lazy `.+?` is embedded by trying split points from the shortest show/title
segment upward; the optional greedy year group is tried before its omission,
matching the regex engine's backtracking order.  `.` excludes `'\n'`.
-/

/-- Captures of a successful `TV_RE` match: the show segment, the optional
four-digit year, the season/episode digit pairs with the actual (case
variable) `S`/`E` marker characters, and the uninspected remainder after the
word boundary. -/
structure TVGroups where
  showG : List Char
  yearG : Option (List Char)
  sChar : Char
  seasonG : List Char
  eChar : Char
  epG : List Char
  restG : List Char
  deriving DecidableEq, Repr

/-- The year alternation `19\d{2}|20\d{2}`. -/
def yearOk (y1 y2 y3 y4 : Char) : Bool :=
  ((y1 = '1' && y2 = '9') || (y1 = '2' && y2 = '0')) && isDigitChar y3 && isDigitChar y4

/-- `S(?P<season>\d{2})E(?P<ep>\d{2})\b`, case-insensitive markers. -/
def seTail (cs : List Char) : Option (Char × List Char × Char × List Char × List Char) :=
  match cs with
  | s :: d1 :: d2 :: e :: d3 :: d4 :: rem =>
    if (s = 'S' || s = 's') && isDigitChar d1 && isDigitChar d2 &&
       (e = 'E' || e = 'e') && isDigitChar d3 && isDigitChar d4 && wordBoundary rem
    then some (s, [d1, d2], e, [d3, d4], rem)
    else none
  | _ => none

/-- The tail after the show segment when the optional year group matches:
`<year>\.S..E..\b` (the leading dot has already been consumed). -/
def tvTailYear (cs : List Char) :
    Option (Option (List Char) × Char × List Char × Char × List Char × List Char) :=
  match cs with
  | y1 :: y2 :: y3 :: y4 :: d :: rest2 =>
    if d = '.' && yearOk y1 y2 y3 y4 then
      match seTail rest2 with
      | some (s, sd, e, ed, rem) => some (some [y1, y2, y3, y4], s, sd, e, ed, rem)
      | none => none
    else none
  | _ => none

/-- The tail of `TV_RE` after the show segment:
`(?:\.(?P<year>…))?\.S(?P<season>\d{2})E(?P<ep>\d{2})\b`.  The greedy
optional year group is tried first, then its omission. -/
def tvTail (cs : List Char) :
    Option (Option (List Char) × Char × List Char × Char × List Char × List Char) :=
  match cs with
  | d :: rest1 =>
    if d = '.' then
      match tvTailYear rest1 with
      | some g => some g
      | none =>
        match seTail rest1 with
        | some (s, sd, e, ed, rem) => some (none, s, sd, e, ed, rem)
        | none => none
    else none
  | [] => none

/-- Anchored scan for `TV_RE`: the lazy `.+?` show segment grows from one
character until the tail pattern matches. -/
def tvScan : List Char → Option TVGroups
  | [] => none
  | c :: rest =>
    if c = '\n' then none
    else
      match tvTail rest with
      | some (y, s, sd, e, ed, rem) =>
        some { showG := [c], yearG := y, sChar := s, seasonG := sd,
               eChar := e, epG := ed, restG := rem }
      | none =>
        match tvScan rest with
        | some g => some { g with showG := c :: g.showG }
        | none => none

/-- Embeds the dataclass `ParsedTV`. -/
structure ParsedTV where
  show_ : String
  year : Option Nat
  season : Nat
  episode : Nat
  deriving DecidableEq, Repr

/-- Embeds the dataclass `ParsedMovie`. -/
structure ParsedMovie where
  title : String
  year : Nat
  deriving DecidableEq, Repr

/-- Embeds `parse_tv`: match `TV_RE`, normalize the show segment with
`slug_to_name`, convert year/season/episode groups with `int()`. -/
def parse_tv (release : String) : Option ParsedTV :=
  match tvScan release.data with
  | none => none
  | some g =>
    some { show_ := slug_to_name (String.mk g.showG),
           year := g.yearG.map digitsVal,
           season := digitsVal g.seasonG,
           episode := digitsVal g.epG }

/-- Captures of a successful `MOVIE_RE` match. -/
structure MovieGroups where
  titleG : List Char
  myearG : List Char
  mrestG : List Char
  deriving DecidableEq, Repr

/-- The tail of `MOVIE_RE` after the title segment: `\.(?P<year>19\d{2}|20\d{2})\b`. -/
def movieTail (cs : List Char) : Option (List Char × List Char) :=
  match cs with
  | d :: y1 :: y2 :: y3 :: y4 :: rem =>
    if d = '.' && (yearOk y1 y2 y3 y4 && wordBoundary rem) then some ([y1, y2, y3, y4], rem)
    else none
  | _ => none

/-- Anchored scan for `MOVIE_RE`, lazy title segment. -/
def movieScan : List Char → Option MovieGroups
  | [] => none
  | c :: rest =>
    if c = '\n' then none
    else
      match movieTail rest with
      | some (y, rem) => some { titleG := [c], myearG := y, mrestG := rem }
      | none =>
        match movieScan rest with
        | some g => some { g with titleG := c :: g.titleG }
        | none => none

/-- Embeds `parse_movie`. -/
def parse_movie (release : String) : Option ParsedMovie :=
  match movieScan release.data with
  | none => none
  | some g =>
    some { title := slug_to_name (String.mk g.titleG), year := digitsVal g.myearG }

/-- The characters the optional year group contributes to the matched
prefix: the four digits followed by the separating dot. -/
def yearChunk : Option (List Char) → List Char
  | none => []
  | some yl => yl ++ ['.']

/-! ## Filesystem model, effects, and path constants

The filesystem is an existence oracle; mutating operations update it and are
also recorded in an effect trace.  Logging (`log_line`) and audit-record
writing (`audit`) are external collaborators per the spec, modelled as pure
trace events.  The external `unrar` binary and the process identity live in
an ambient `World`. -/

/-- One regular file inside a source folder, in the deterministic `rglob`
traversal order of the folder's recursive listing (directories and entries
that vanish before `stat` are omitted, matching the `is_file()` /
`FileNotFoundError` filters in the scans). -/
structure MFile where
  path : String
  size : Nat
  deriving DecidableEq, Repr

/-- A source folder: its absolute path and its recursive file listing in
traversal order. -/
structure Folder where
  path : String
  files : List MFile
  deriving DecidableEq, Repr

/-- The filesystem existence oracle (`Path.exists()`). -/
structure FS where
  existing : String → Bool

/-- Embeds `path.exists()`. -/
def pathExists (fs : FS) (p : String) : Bool :=
  fs.existing p

/-- Record a created directory (`mkdir -p`; ancestors are not tracked
separately since no later query inspects them). -/
def fsAfterMkdir (fs : FS) (path : String) : FS :=
  ⟨fun p => p = path || fs.existing p⟩

/-- Record a move (`shutil.move`): the source ceases to exist, the
destination starts to. -/
def fsAfterMove (fs : FS) (src dst : String) : FS :=
  ⟨fun p => if p = src then false else p = dst || fs.existing p⟩

/-- Ambient environment: the external extraction tool (exit code and combined
output for a given archive and destination), the process id and today's
date string. -/
structure World where
  unrar : String → String → Int × String
  pid : Nat
  today : String

/-- Observable effects of the processing functions, in program order. -/
inductive Effect where
  | logLine (msg : String)
  | auditUnrarFailed (release rar output : String)
  | fsMkdir (path : String)
  | fsMove (src dst : String)
  | toolRun (cmd : List String)
  deriving DecidableEq, Repr

/-- Effects that mutate the filesystem or invoke the external tool (log and
audit appends are reporting, not media mutation). -/
def isMutation : Effect → Bool
  | Effect.fsMkdir _ => true
  | Effect.fsMove _ _ => true
  | Effect.toolRun _ => true
  | _ => false

/-- Module constant `MEDIA`. -/
def MEDIA : String := "/mnt/jace_media"

/-- Module constant `COMPLETE`. -/
def COMPLETE : String := "/mnt/jace_complete"

/-- Module constant `DST_TV`. -/
def DST_TV : String := MEDIA ++ "/Video/TV"

/-- Module constant `DST_MOVIES`. -/
def DST_MOVIES : String := MEDIA ++ "/Video/Movies"

/-- Module constant `RECYCLE`. -/
def RECYCLE : String := COMPLETE ++ "/#recycle/process-downloads"

/-- Module constant `VIDEO_EXTS`. -/
def VIDEO_EXTS : List String := [".mkv", ".mp4", ".avi", ".mov", ".m4v", ".wmv"]

/-- Default `min_bytes` of `find_large_extensionless`: 100 MiB. -/
def MIN_EXTLESS_BYTES : Nat := 100 * 1024 * 1024

/-! ## Media discovery -/

/-- `rglob("*.rar")` name test: fnmatch `*.rar`, i.e. the name ends in
`.rar`. -/
def isRarFile (f : MFile) : Bool :=
  List.isSuffixOf ".rar".data (fileName f.path).data

/-- `p.suffix.lower() in VIDEO_EXTS`. -/
def isVideoFile (f : MFile) : Bool :=
  VIDEO_EXTS.contains (lowerStr (pySuffix (fileName f.path)))

/-- `p.suffix == "" and p.stat().st_size >= min_bytes`. -/
def isLargeExtensionless (f : MFile) : Bool :=
  pySuffix (fileName f.path) = "" && MIN_EXTLESS_BYTES ≤ f.size

/-- Embeds `find_first_rar`: first match of `rglob("*.rar")`. -/
def find_first_rar (files : List MFile) : Option MFile :=
  files.find? isRarFile

/-- Embeds `find_video_files`: all files with a recognized video extension,
in traversal order. -/
def find_video_files (files : List MFile) : List MFile :=
  files.filter isVideoFile

/-- Embeds `find_large_extensionless` at its default threshold. -/
def find_large_extensionless (files : List MFile) : List MFile :=
  files.filter isLargeExtensionless

/-- The content strategy of §4.2 of the spec, as selected by the
`if rar: / elif vids: / elif extless: / else:` chain shared by
`process_series_folder` and `process_movie_folder`. -/
inductive ContentStrategy where
  | archive (rar : MFile)
  | videoFiles (vids : List MFile)
  | largeUnlabeled (files : List MFile)
  | noMedia
  deriving DecidableEq, Repr

/-- The strategy-selection chain: Archive > VideoFiles > LargeUnlabeledFiles
> None, with the scan results carried into the selected variant. -/
def chooseStrategy (files : List MFile) : ContentStrategy :=
  match find_first_rar files with
  | some r => ContentStrategy.archive r
  | none =>
    match find_video_files files with
    | v :: vs => ContentStrategy.videoFiles (v :: vs)
    | [] =>
      match find_large_extensionless files with
      | f :: fs => ContentStrategy.largeUnlabeled (f :: fs)
      | [] => ContentStrategy.noMedia

/-! ## Transfer executor and retirement -/

/-- Embeds `ensure_dir`: no-op when the path exists; create it only when
`run`; log the intended creation in both modes. -/
def ensure_dir (path : String) (run : Bool) (fs : FS) : FS × List Effect :=
  if pathExists fs path then (fs, [])
  else if run then
    (fsAfterMkdir fs path, [Effect.fsMkdir path, Effect.logLine ("mkdir -p " ++ path)])
  else (fs, [Effect.logLine ("mkdir -p " ++ path)])

/-- Embeds `move_path`: ensure the destination's parent, move only when
`run`, log the move in both modes. -/
def move_path (src dst : String) (run : Bool) (fs : FS) : FS × List Effect :=
  let r1 := ensure_dir (parentDir dst) run fs
  if run then
    (fsAfterMove r1.1 src dst,
     r1.2 ++ [Effect.fsMove src dst, Effect.logLine ("move " ++ src ++ " -> " ++ dst)])
  else (r1.1, r1.2 ++ [Effect.logLine ("move " ++ src ++ " -> " ++ dst)])

/-- Embeds `extract_rar`: ensure the destination directory, log the command,
short-circuit to `(True, "DRY_RUN")` in dry-run mode, otherwise invoke the
tool and succeed iff its exit code is zero. -/
def extract_rar (rar destDir : String) (run : Bool) (w : World) (fs : FS) :
    (Bool × String) × FS × List Effect :=
  let r1 := ensure_dir destDir run fs
  let logE := Effect.logLine ("unrar " ++ "e -o+ " ++ rar ++ " " ++ destDir)
  if run = false then ((true, "DRY_RUN"), r1.1, r1.2 ++ [logE])
  else
    let res := w.unrar rar destDir
    ((res.1 = 0, res.2), r1.1,
     r1.2 ++ [logE, Effect.toolRun ["unrar", "e", "-o+", rar, destDir]])

/-- The deconfliction loop of `unique_recycle_dest`: first candidate
`<base>.<i>` (over `i` drawn from `range(1, 1000)`) that does not exist. -/
def deconflictList (ex : String → Bool) (basePath : String) : List Nat → Option String
  | [] => none
  | i :: rest =>
    let cand := basePath ++ "." ++ toString i
    if ex cand then deconflictList ex basePath rest else some cand

/-- Embeds `unique_recycle_dest`: `RECYCLE/<date>/<name>`, deconflicted with
suffixes `.1` … `.999`, with an unchecked `.<pid>` fallback. -/
def unique_recycle_dest (folderName : String) (w : World) (fs : FS) : String :=
  let base := RECYCLE ++ "/" ++ w.today ++ "/" ++ folderName
  if pathExists fs base = false then base
  else
    match deconflictList fs.existing base (List.range' 1 999) with
    | some cand => cand
    | none => base ++ "." ++ toString w.pid

/-- The per-file move loop of the VideoFiles branch:
`move_path(v, dest_dir / v.name, run)` for each video in order. -/
def moveAll (vids : List MFile) (destDir : String) (run : Bool) (fs : FS) :
    FS × List Effect :=
  match vids with
  | [] => (fs, [])
  | v :: rest =>
    let r1 := move_path v.path (destDir ++ "/" ++ fileName v.path) run fs
    let r2 := moveAll rest destDir run r1.1
    (r2.1, r1.2 ++ r2.2)

/-- The per-file move loop of the LargeUnlabeledFiles branch: every file is
moved to `dest_dir / f"{release}.mkv"`. -/
def moveAllRenamed (extless : List MFile) (destDir release : String) (run : Bool) (fs : FS) :
    FS × List Effect :=
  match extless with
  | [] => (fs, [])
  | f :: rest =>
    let r1 := move_path f.path (destDir ++ "/" ++ (release ++ ".mkv")) run fs
    let r2 := moveAllRenamed rest destDir release run r1.1
    (r2.1, r1.2 ++ r2.2)

/-- The retirement block shared by both processors: compute the recycle
destination, ensure its parent, move the source folder only when `run`, log
the retirement in both modes, and return the destination. -/
def recycleStep (folderPath release : String) (run : Bool) (w : World) (fs : FS) :
    String × FS × List Effect :=
  let rdest := unique_recycle_dest release w fs
  let r1 := ensure_dir (parentDir rdest) run fs
  if run then
    (rdest, fsAfterMove r1.1 folderPath rdest,
     r1.2 ++ [Effect.fsMove folderPath rdest,
              Effect.logLine ("recycle " ++ folderPath ++ " -> " ++ rdest)])
  else
    (rdest, r1.1, r1.2 ++ [Effect.logLine ("recycle " ++ folderPath ++ " -> " ++ rdest)])

/-! ## Item processors -/

/-- The result dictionary of one processed item (§3 ItemResult): optional
keys of the Python dict become `Option` fields. -/
structure ItemResult where
  kind : String
  release : String
  status : String
  reason : Option String
  dest : Option String
  path : String
  recycled_to : Option String
  deriving DecidableEq, Repr

/-- Destination directory computed by `process_series_folder`:
`DST_TV / show_folder / f"Season {season:02d}"`. -/
def seriesDestDir (parsed : ParsedTV) : String :=
  let showFolder :=
    match parsed.year with
    | none => parsed.show_
    | some y => parsed.show_ ++ " (" ++ toString y ++ ")"
  DST_TV ++ "/" ++ showFolder ++ "/" ++ ("Season " ++ pad2 parsed.season)

/-- Destination directory computed by `process_movie_folder`:
`DST_MOVIES / f"{title} ({year})"`. -/
def movieDestDir (parsed : ParsedMovie) : String :=
  DST_MOVIES ++ "/" ++ (parsed.title ++ " (" ++ toString parsed.year ++ ")")

/-- Embeds `process_series_folder`.  `moved_any` is false only when the
selected list variant is empty (unreachable from `chooseStrategy`, kept for
fidelity with the source's flag). -/
def process_series_folder (folder : Folder) (run : Bool) (w : World) (fs : FS) :
    ItemResult × FS × List Effect :=
  let release := fileName folder.path
  match parse_tv release with
  | none =>
    ({ kind := "tv", release := release, status := "error", reason := some "unparseable",
       dest := none, path := folder.path, recycled_to := none }, fs,
     [Effect.logLine ("IRREGULAR TV name (can\x27t parse): " ++ release)])
  | some parsed =>
    let destDir := seriesDestDir parsed
    let r1 := ensure_dir destDir run fs
    let details : ItemResult :=
      { kind := "tv", release := release, status := "ok", reason := none,
        dest := some destDir, path := folder.path, recycled_to := none }
    match chooseStrategy folder.files with
    | ContentStrategy.archive rar =>
      let r2 := extract_rar rar.path destDir run w r1.1
      if r2.1.1 = false then
        ({ details with status := "error", reason := some "unrar_failed" }, r2.2.1,
         r1.2 ++ r2.2.2 ++
           [Effect.logLine ("ERROR unrar failed for " ++ rar.path ++ " (leaving source)"),
            Effect.auditUnrarFailed release rar.path (takeLast 2000 r2.1.2)])
      else
        let r3 := recycleStep folder.path release run w r2.2.1
        ({ details with recycled_to := some r3.1 }, r3.2.1, r1.2 ++ r2.2.2 ++ r3.2.2)
    | ContentStrategy.videoFiles vids =>
      let r2 := moveAll vids destDir run r1.1
      if vids.isEmpty then (details, r2.1, r1.2 ++ r2.2)
      else
        let r3 := recycleStep folder.path release run w r2.1
        ({ details with recycled_to := some r3.1 }, r3.2.1, r1.2 ++ r2.2 ++ r3.2.2)
    | ContentStrategy.largeUnlabeled extless =>
      let r2 := moveAllRenamed extless destDir release run r1.1
      if extless.isEmpty then (details, r2.1, r1.2 ++ r2.2)
      else
        let r3 := recycleStep folder.path release run w r2.1
        ({ details with recycled_to := some r3.1 }, r3.2.1, r1.2 ++ r2.2 ++ r3.2.2)
    | ContentStrategy.noMedia =>
      ({ details with status := "error", reason := some "no_media_found" }, r1.1,
       r1.2 ++ [Effect.logLine ("IRREGULAR: no rar/video files found in " ++ folder.path)])

/-- Embeds `process_movie_folder`. -/
def process_movie_folder (folder : Folder) (run : Bool) (w : World) (fs : FS) :
    ItemResult × FS × List Effect :=
  let release := fileName folder.path
  match parse_movie release with
  | none =>
    ({ kind := "movie", release := release, status := "error", reason := some "unparseable",
       dest := none, path := folder.path, recycled_to := none }, fs,
     [Effect.logLine ("IRREGULAR Movie name (can\x27t parse year): " ++ release)])
  | some parsed =>
    let destDir := movieDestDir parsed
    let r1 := ensure_dir destDir run fs
    let details : ItemResult :=
      { kind := "movie", release := release, status := "ok", reason := none,
        dest := some destDir, path := folder.path, recycled_to := none }
    match chooseStrategy folder.files with
    | ContentStrategy.archive rar =>
      let r2 := extract_rar rar.path destDir run w r1.1
      if r2.1.1 = false then
        ({ details with status := "error", reason := some "unrar_failed" }, r2.2.1,
         r1.2 ++ r2.2.2 ++
           [Effect.logLine ("ERROR unrar failed for " ++ rar.path ++ " (leaving source)"),
            Effect.auditUnrarFailed release rar.path (takeLast 2000 r2.1.2)])
      else
        let r3 := recycleStep folder.path release run w r2.2.1
        ({ details with recycled_to := some r3.1 }, r3.2.1, r1.2 ++ r2.2.2 ++ r3.2.2)
    | ContentStrategy.videoFiles vids =>
      let r2 := moveAll vids destDir run r1.1
      if vids.isEmpty then (details, r2.1, r1.2 ++ r2.2)
      else
        let r3 := recycleStep folder.path release run w r2.1
        ({ details with recycled_to := some r3.1 }, r3.2.1, r1.2 ++ r2.2 ++ r3.2.2)
    | ContentStrategy.largeUnlabeled extless =>
      let r2 := moveAllRenamed extless destDir release run r1.1
      if extless.isEmpty then (details, r2.1, r1.2 ++ r2.2)
      else
        let r3 := recycleStep folder.path release run w r2.1
        ({ details with recycled_to := some r3.1 }, r3.2.1, r1.2 ++ r2.2 ++ r3.2.2)
    | ContentStrategy.noMedia =>
      ({ details with status := "error", reason := some "no_media_found" }, r1.1,
       r1.2 ++ [Effect.logLine ("IRREGULAR: no rar/video files found in " ++ folder.path)])

/-! ## Concrete fixtures used by witnesses and counterexamples -/

/-- An empty filesystem: no path exists. -/
def fsEmpty : FS := ⟨fun _ => false⟩

/-- A saturated filesystem: every path exists. -/
def fsAll : FS := ⟨fun _ => true⟩

/-- A world whose extraction tool always fails with exit code 1. -/
def wBoom : World := ⟨fun _ _ => (1, "boom"), 7, "2024-06-01"⟩

/-- The un-deconflicted recycle destination `RECYCLE/<date>/<name>`. -/
def recycleBase (w : World) (name : String) : String :=
  RECYCLE ++ "/" ++ w.today ++ "/" ++ name

/-! ## Structural lemmas about the transfer helpers -/

theorem ensure_dir_fst_dry (p : String) (fs : FS) : (ensure_dir p false fs).1 = fs := by
  unfold ensure_dir
  split <;> simp

theorem ensure_dir_mut_dry (p : String) (fs : FS) :
    (ensure_dir p false fs).2.filter isMutation = [] := by
  unfold ensure_dir
  split <;> simp [isMutation]

theorem ensure_dir_no_fsMove (p : String) (run : Bool) (fs : FS) (s d : String) :
    Effect.fsMove s d ∉ (ensure_dir p run fs).2 := by
  unfold ensure_dir
  split
  · simp
  · split <;> simp

theorem ensure_dir_mut_mkdir (p : String) (run : Bool) (fs : FS) :
    ∀ e ∈ (ensure_dir p run fs).2, isMutation e = true → e = Effect.fsMkdir p := by
  unfold ensure_dir
  split
  · simp
  · split <;> simp [isMutation]

theorem move_path_fst_dry (src dst : String) (fs : FS) : (move_path src dst false fs).1 = fs := by
  unfold move_path
  simp [ensure_dir_fst_dry]

theorem move_path_mut_dry (src dst : String) (fs : FS) :
    (move_path src dst false fs).2.filter isMutation = [] := by
  unfold move_path
  simp [List.filter_append, ensure_dir_mut_dry, isMutation]

theorem move_path_logs (src dst : String) (run : Bool) (fs : FS) :
    Effect.logLine ("move " ++ src ++ " -> " ++ dst) ∈ (move_path src dst run fs).2 := by
  unfold move_path
  split <;> simp

theorem extract_rar_dry (rar destDir : String) (w : World) (fs : FS) :
    (extract_rar rar destDir false w fs).1 = (true, "DRY_RUN") ∧
    (extract_rar rar destDir false w fs).2.1 = fs ∧
    (extract_rar rar destDir false w fs).2.2.filter isMutation = [] ∧
    Effect.logLine ("unrar " ++ "e -o+ " ++ rar ++ " " ++ destDir) ∈
      (extract_rar rar destDir false w fs).2.2 := by
  refine ⟨rfl, ?_, ?_, ?_⟩
  · unfold extract_rar
    simp [ensure_dir_fst_dry]
  · unfold extract_rar
    simp [List.filter_append, ensure_dir_mut_dry, isMutation]
  · unfold extract_rar
    simp

theorem extract_rar_no_fsMove (rar destDir : String) (run : Bool) (w : World) (fs : FS)
    (s d : String) : Effect.fsMove s d ∉ (extract_rar rar destDir run w fs).2.2 := by
  unfold extract_rar
  split <;> simp [ensure_dir_no_fsMove]

theorem moveAll_dry (vids : List MFile) (destDir : String) (fs : FS) :
    (moveAll vids destDir false fs).1 = fs ∧
    (moveAll vids destDir false fs).2.filter isMutation = [] := by
  induction vids generalizing fs with
  | nil => simp [moveAll]
  | cons v rest ih =>
    unfold moveAll
    simp [move_path_fst_dry, move_path_mut_dry, List.filter_append, ih]

theorem moveAllRenamed_dry (extless : List MFile) (destDir release : String) (fs : FS) :
    (moveAllRenamed extless destDir release false fs).1 = fs ∧
    (moveAllRenamed extless destDir release false fs).2.filter isMutation = [] := by
  induction extless generalizing fs with
  | nil => simp [moveAllRenamed]
  | cons f rest ih =>
    unfold moveAllRenamed
    simp [move_path_fst_dry, move_path_mut_dry, List.filter_append, ih]

theorem recycleStep_dry (folderPath release : String) (w : World) (fs : FS) :
    (recycleStep folderPath release false w fs).2.1 = fs ∧
    (recycleStep folderPath release false w fs).2.2.filter isMutation = [] := by
  unfold recycleStep
  simp [ensure_dir_fst_dry, List.filter_append, ensure_dir_mut_dry, isMutation]

theorem process_series_folder_dry (folder : Folder) (w : World) (fs : FS) :
    (process_series_folder folder false w fs).2.1 = fs ∧
    (process_series_folder folder false w fs).2.2.filter isMutation = [] := by
  unfold process_series_folder
  rcases hp : parse_tv (fileName folder.path) with _ | parsed
  · simp [hp, isMutation]
  · rcases hs : chooseStrategy folder.files with rar | vids | extl | _
    · simp [hp, hs, List.filter_append, ensure_dir_fst_dry, ensure_dir_mut_dry,
            (extract_rar_dry _ _ w _).1, (extract_rar_dry _ _ w _).2.1,
            (extract_rar_dry _ _ w _).2.2.1,
            (recycleStep_dry _ _ w _).1, (recycleStep_dry _ _ w _).2]
    · rcases hv : vids.isEmpty with _ | _ <;>
        simp [hp, hs, hv, List.filter_append, ensure_dir_fst_dry, ensure_dir_mut_dry,
              (moveAll_dry _ _ _).1, (moveAll_dry _ _ _).2,
              (recycleStep_dry _ _ w _).1, (recycleStep_dry _ _ w _).2]
    · rcases hv : extl.isEmpty with _ | _ <;>
        simp [hp, hs, hv, List.filter_append, ensure_dir_fst_dry, ensure_dir_mut_dry,
              (moveAllRenamed_dry _ _ _ _).1, (moveAllRenamed_dry _ _ _ _).2,
              (recycleStep_dry _ _ w _).1, (recycleStep_dry _ _ w _).2]
    · simp [hp, hs, List.filter_append, ensure_dir_fst_dry, ensure_dir_mut_dry, isMutation]

theorem process_movie_folder_dry (folder : Folder) (w : World) (fs : FS) :
    (process_movie_folder folder false w fs).2.1 = fs ∧
    (process_movie_folder folder false w fs).2.2.filter isMutation = [] := by
  unfold process_movie_folder
  rcases hp : parse_movie (fileName folder.path) with _ | parsed
  · simp [hp, isMutation]
  · rcases hs : chooseStrategy folder.files with rar | vids | extl | _
    · simp [hp, hs, List.filter_append, ensure_dir_fst_dry, ensure_dir_mut_dry,
            (extract_rar_dry _ _ w _).1, (extract_rar_dry _ _ w _).2.1,
            (extract_rar_dry _ _ w _).2.2.1,
            (recycleStep_dry _ _ w _).1, (recycleStep_dry _ _ w _).2]
    · rcases hv : vids.isEmpty with _ | _ <;>
        simp [hp, hs, hv, List.filter_append, ensure_dir_fst_dry, ensure_dir_mut_dry,
              (moveAll_dry _ _ _).1, (moveAll_dry _ _ _).2,
              (recycleStep_dry _ _ w _).1, (recycleStep_dry _ _ w _).2]
    · rcases hv : extl.isEmpty with _ | _ <;>
        simp [hp, hs, hv, List.filter_append, ensure_dir_fst_dry, ensure_dir_mut_dry,
              (moveAllRenamed_dry _ _ _ _).1, (moveAllRenamed_dry _ _ _ _).2,
              (recycleStep_dry _ _ w _).1, (recycleStep_dry _ _ w _).2]
    · simp [hp, hs, List.filter_append, ensure_dir_fst_dry, ensure_dir_mut_dry, isMutation]

theorem not_mem_of_filter_mut_nil {l : List Effect} (h : l.filter isMutation = [])
    {e : Effect} (he : isMutation e = true) : e ∉ l := by
  intro hm
  have hmem : e ∈ l.filter isMutation := List.mem_filter.mpr ⟨hm, he⟩
  rw [h] at hmem
  exact absurd hmem (List.not_mem_nil e)

theorem move_path_moves (src dst : String) (fs : FS) :
    Effect.fsMove src dst ∈ (move_path src dst true fs).2 := by
  unfold move_path
  simp

theorem extract_rar_run (rar destDir : String) (w : World) (fs : FS) :
    extract_rar rar destDir true w fs =
      ((decide ((w.unrar rar destDir).1 = 0), (w.unrar rar destDir).2),
       (ensure_dir destDir true fs).1,
       (ensure_dir destDir true fs).2 ++
         [Effect.logLine ("unrar " ++ "e -o+ " ++ rar ++ " " ++ destDir),
          Effect.toolRun ["unrar", "e", "-o+", rar, destDir]]) := by
  unfold extract_rar
  simp

/-! ## Claim theorems -/

/-- C1: for every processed folder (series or movie), if the returned
ItemResult has status error — for any reason: unparseable, no_media_found,
or unrar_failed — then the result carries no `recycled_to` path and the
effect trace contains no move of the source folder to the recycle area. -/
theorem c1_error_no_retirement (folderS folderM : Folder) (run : Bool) (w : World) (fs : FS) :
    ((process_series_folder folderS run w fs).1.status = "error" →
      (process_series_folder folderS run w fs).1.recycled_to = none ∧
      ∀ d, Effect.fsMove folderS.path d ∉ (process_series_folder folderS run w fs).2.2) ∧
    ((process_movie_folder folderM run w fs).1.status = "error" →
      (process_movie_folder folderM run w fs).1.recycled_to = none ∧
      ∀ d, Effect.fsMove folderM.path d ∉ (process_movie_folder folderM run w fs).2.2) := by
  constructor
  · intro h
    unfold process_series_folder at h ⊢
    rcases hp : parse_tv (fileName folderS.path) with _ | parsed
    · simp [hp]
    · rcases hs : chooseStrategy folderS.files with rar | vids | extl | _
      · rcases hok : (extract_rar rar.path (seriesDestDir parsed) run w
            (ensure_dir (seriesDestDir parsed) run fs).1).1.1 with _ | _
        · simp [hp, hs, hok, List.mem_append, ensure_dir_no_fsMove, extract_rar_no_fsMove]
        · simp [hp, hs, hok] at h
      · rcases hv : vids.isEmpty with _ | _ <;> simp [hp, hs, hv] at h
      · rcases hv : extl.isEmpty with _ | _ <;> simp [hp, hs, hv] at h
      · simp [hp, hs, List.mem_append, ensure_dir_no_fsMove]
  · intro h
    unfold process_movie_folder at h ⊢
    rcases hp : parse_movie (fileName folderM.path) with _ | parsed
    · simp [hp]
    · rcases hs : chooseStrategy folderM.files with rar | vids | extl | _
      · rcases hok : (extract_rar rar.path (movieDestDir parsed) run w
            (ensure_dir (movieDestDir parsed) run fs).1).1.1 with _ | _
        · simp [hp, hs, hok, List.mem_append, ensure_dir_no_fsMove, extract_rar_no_fsMove]
        · simp [hp, hs, hok] at h
      · rcases hv : vids.isEmpty with _ | _ <;> simp [hp, hs, hv] at h
      · rcases hv : extl.isEmpty with _ | _ <;> simp [hp, hs, hv] at h
      · simp [hp, hs, List.mem_append, ensure_dir_no_fsMove]

theorem c1_witness :
    (process_series_folder ⟨"/mnt/jace_complete/Series/randomfolder", []⟩ true wBoom
        fsEmpty).1.recycled_to = none ∧
    ∀ d, Effect.fsMove "/mnt/jace_complete/Series/randomfolder" d ∉
      (process_series_folder ⟨"/mnt/jace_complete/Series/randomfolder", []⟩ true wBoom
        fsEmpty).2.2 :=
  (c1_error_no_retirement ⟨"/mnt/jace_complete/Series/randomfolder", []⟩
    ⟨"/mnt/jace_complete/Movies/randomfolder", []⟩ true wBoom fsEmpty).1 (by decide)

/-- C2: in dry-run mode (`run = false`) no mutating operation touches the
filesystem: `extract_rar` does not invoke the tool and returns success with
the `"DRY_RUN"` sentinel, `move_path` performs no move, `ensure_dir` creates
no directory, the whole per-item processing leaves the filesystem oracle
unchanged and its trace free of mutation effects, while the intended move
and extraction commands are still logged. -/
theorem c2_dry_run_no_mutation (p src dst rar destDir : String) (w : World) (fs : FS)
    (folderS folderM : Folder) :
    ((ensure_dir p false fs).1 = fs ∧ (ensure_dir p false fs).2.filter isMutation = []) ∧
    ((move_path src dst false fs).1 = fs ∧
      (move_path src dst false fs).2.filter isMutation = [] ∧
      Effect.logLine ("move " ++ src ++ " -> " ++ dst) ∈ (move_path src dst false fs).2) ∧
    ((extract_rar rar destDir false w fs).1 = (true, "DRY_RUN") ∧
      (extract_rar rar destDir false w fs).2.1 = fs ∧
      (extract_rar rar destDir false w fs).2.2.filter isMutation = [] ∧
      (∀ cmd, Effect.toolRun cmd ∉ (extract_rar rar destDir false w fs).2.2) ∧
      Effect.logLine ("unrar " ++ "e -o+ " ++ rar ++ " " ++ destDir) ∈
        (extract_rar rar destDir false w fs).2.2) ∧
    ((process_series_folder folderS false w fs).2.1 = fs ∧
      (process_series_folder folderS false w fs).2.2.filter isMutation = []) ∧
    ((process_movie_folder folderM false w fs).2.1 = fs ∧
      (process_movie_folder folderM false w fs).2.2.filter isMutation = []) := by
  refine ⟨⟨ensure_dir_fst_dry p fs, ensure_dir_mut_dry p fs⟩,
          ⟨move_path_fst_dry src dst fs, move_path_mut_dry src dst fs,
            move_path_logs src dst false fs⟩,
          ⟨(extract_rar_dry rar destDir w fs).1, (extract_rar_dry rar destDir w fs).2.1,
            (extract_rar_dry rar destDir w fs).2.2.1, ?_,
            (extract_rar_dry rar destDir w fs).2.2.2⟩,
          process_series_folder_dry folderS w fs,
          process_movie_folder_dry folderM w fs⟩
  intro cmd
  exact not_mem_of_filter_mut_nil (extract_rar_dry rar destDir w fs).2.2.1 rfl

/-- C3: content-strategy selection is total and deterministic (exactly one
strategy per folder) with fixed priority Archive > VideoFiles >
LargeUnlabeledFiles > None; a folder containing both an archive file and
video files always selects Archive. -/
theorem c3_strategy_priority (files : List MFile) :
    (∃! s, chooseStrategy files = s) ∧
    ((∃ f ∈ files, isRarFile f = true) → (∃ f ∈ files, isVideoFile f = true) →
      ∃ r, chooseStrategy files = ContentStrategy.archive r) := by
  constructor
  · exact ⟨chooseStrategy files, rfl, fun y hy => hy.symm⟩
  · intro hrar _
    rcases hfind : find_first_rar files with _ | r
    · rw [find_first_rar, List.find?_eq_none] at hfind
      rcases hrar with ⟨f, hf, hrf⟩
      exact absurd hrf (by simpa using hfind f hf)
    · exact ⟨r, by unfold chooseStrategy; rw [hfind]⟩

theorem c3_witness :
    ∃ r, chooseStrategy
        [⟨"/mnt/jace_complete/Series/S/a.rar", 10⟩, ⟨"/mnt/jace_complete/Series/S/b.mkv", 10⟩] =
      ContentStrategy.archive r :=
  (c3_strategy_priority
      [⟨"/mnt/jace_complete/Series/S/a.rar", 10⟩, ⟨"/mnt/jace_complete/Series/S/b.mkv", 10⟩]).2
    (by decide) (by decide)

/-- C4: when the Archive strategy is selected and the extraction tool exits
nonzero (performing mode), the item result has status error with reason
`"unrar_failed"`, the audit record carries the diagnostic output truncated
to its last 2000 characters, and the source folder is never moved to the
recycle area (no retirement). -/
theorem c4_unrar_failed (folderS folderM : Folder) (w : World) (fs : FS) :
    (∀ parsed rar code out, parse_tv (fileName folderS.path) = some parsed →
      chooseStrategy folderS.files = ContentStrategy.archive rar →
      w.unrar rar.path (seriesDestDir parsed) = (code, out) → code ≠ 0 →
      (process_series_folder folderS true w fs).1.status = "error" ∧
      (process_series_folder folderS true w fs).1.reason = some "unrar_failed" ∧
      (process_series_folder folderS true w fs).1.recycled_to = none ∧
      Effect.auditUnrarFailed (fileName folderS.path) rar.path (takeLast 2000 out) ∈
        (process_series_folder folderS true w fs).2.2 ∧
      ∀ d, Effect.fsMove folderS.path d ∉ (process_series_folder folderS true w fs).2.2) ∧
    (∀ parsed rar code out, parse_movie (fileName folderM.path) = some parsed →
      chooseStrategy folderM.files = ContentStrategy.archive rar →
      w.unrar rar.path (movieDestDir parsed) = (code, out) → code ≠ 0 →
      (process_movie_folder folderM true w fs).1.status = "error" ∧
      (process_movie_folder folderM true w fs).1.reason = some "unrar_failed" ∧
      (process_movie_folder folderM true w fs).1.recycled_to = none ∧
      Effect.auditUnrarFailed (fileName folderM.path) rar.path (takeLast 2000 out) ∈
        (process_movie_folder folderM true w fs).2.2 ∧
      ∀ d, Effect.fsMove folderM.path d ∉ (process_movie_folder folderM true w fs).2.2) := by
  constructor
  · intro parsed rar code out hp hs hu hc
    have hd : decide (code = (0 : Int)) = false := decide_eq_false hc
    unfold process_series_folder
    simp [hp, hs, extract_rar_run, hu, hd, List.mem_append, ensure_dir_no_fsMove]
  · intro parsed rar code out hp hs hu hc
    have hd : decide (code = (0 : Int)) = false := decide_eq_false hc
    unfold process_movie_folder
    simp [hp, hs, extract_rar_run, hu, hd, List.mem_append, ensure_dir_no_fsMove]

theorem c4_witness :
    ((process_series_folder ⟨"/mnt/jace_complete/Series/Show.Name.2020.S01E02.GRP",
        [⟨"/mnt/jace_complete/Series/Show.Name.2020.S01E02.GRP/a.rar", 5⟩]⟩ true wBoom
        fsEmpty).1.status = "error" ∧
      (process_series_folder ⟨"/mnt/jace_complete/Series/Show.Name.2020.S01E02.GRP",
        [⟨"/mnt/jace_complete/Series/Show.Name.2020.S01E02.GRP/a.rar", 5⟩]⟩ true wBoom
        fsEmpty).1.reason = some "unrar_failed" ∧
      (process_series_folder ⟨"/mnt/jace_complete/Series/Show.Name.2020.S01E02.GRP",
        [⟨"/mnt/jace_complete/Series/Show.Name.2020.S01E02.GRP/a.rar", 5⟩]⟩ true wBoom
        fsEmpty).1.recycled_to = none ∧
      Effect.auditUnrarFailed "Show.Name.2020.S01E02.GRP"
          "/mnt/jace_complete/Series/Show.Name.2020.S01E02.GRP/a.rar" (takeLast 2000 "boom") ∈
        (process_series_folder ⟨"/mnt/jace_complete/Series/Show.Name.2020.S01E02.GRP",
          [⟨"/mnt/jace_complete/Series/Show.Name.2020.S01E02.GRP/a.rar", 5⟩]⟩ true wBoom
          fsEmpty).2.2 ∧
      ∀ d, Effect.fsMove "/mnt/jace_complete/Series/Show.Name.2020.S01E02.GRP" d ∉
        (process_series_folder ⟨"/mnt/jace_complete/Series/Show.Name.2020.S01E02.GRP",
          [⟨"/mnt/jace_complete/Series/Show.Name.2020.S01E02.GRP/a.rar", 5⟩]⟩ true wBoom
          fsEmpty).2.2) ∧
    ((process_movie_folder ⟨"/mnt/jace_complete/Movies/Movie.Title.1999.GRP",
        [⟨"/mnt/jace_complete/Movies/Movie.Title.1999.GRP/m.rar", 5⟩]⟩ true wBoom
        fsEmpty).1.status = "error" ∧
      (process_movie_folder ⟨"/mnt/jace_complete/Movies/Movie.Title.1999.GRP",
        [⟨"/mnt/jace_complete/Movies/Movie.Title.1999.GRP/m.rar", 5⟩]⟩ true wBoom
        fsEmpty).1.reason = some "unrar_failed" ∧
      (process_movie_folder ⟨"/mnt/jace_complete/Movies/Movie.Title.1999.GRP",
        [⟨"/mnt/jace_complete/Movies/Movie.Title.1999.GRP/m.rar", 5⟩]⟩ true wBoom
        fsEmpty).1.recycled_to = none ∧
      Effect.auditUnrarFailed "Movie.Title.1999.GRP"
          "/mnt/jace_complete/Movies/Movie.Title.1999.GRP/m.rar" (takeLast 2000 "boom") ∈
        (process_movie_folder ⟨"/mnt/jace_complete/Movies/Movie.Title.1999.GRP",
          [⟨"/mnt/jace_complete/Movies/Movie.Title.1999.GRP/m.rar", 5⟩]⟩ true wBoom
          fsEmpty).2.2 ∧
      ∀ d, Effect.fsMove "/mnt/jace_complete/Movies/Movie.Title.1999.GRP" d ∉
        (process_movie_folder ⟨"/mnt/jace_complete/Movies/Movie.Title.1999.GRP",
          [⟨"/mnt/jace_complete/Movies/Movie.Title.1999.GRP/m.rar", 5⟩]⟩ true wBoom
          fsEmpty).2.2) :=
  ⟨(c4_unrar_failed ⟨"/mnt/jace_complete/Series/Show.Name.2020.S01E02.GRP",
      [⟨"/mnt/jace_complete/Series/Show.Name.2020.S01E02.GRP/a.rar", 5⟩]⟩
      ⟨"/mnt/jace_complete/Movies/Movie.Title.1999.GRP",
      [⟨"/mnt/jace_complete/Movies/Movie.Title.1999.GRP/m.rar", 5⟩]⟩ wBoom fsEmpty).1
      ⟨"Show Name", some 2020, 1, 2⟩
      ⟨"/mnt/jace_complete/Series/Show.Name.2020.S01E02.GRP/a.rar", 5⟩ 1 "boom"
      (by decide) (by decide) rfl (by decide),
   (c4_unrar_failed ⟨"/mnt/jace_complete/Series/Show.Name.2020.S01E02.GRP",
      [⟨"/mnt/jace_complete/Series/Show.Name.2020.S01E02.GRP/a.rar", 5⟩]⟩
      ⟨"/mnt/jace_complete/Movies/Movie.Title.1999.GRP",
      [⟨"/mnt/jace_complete/Movies/Movie.Title.1999.GRP/m.rar", 5⟩]⟩ wBoom fsEmpty).2
      ⟨"Movie Title", 1999⟩
      ⟨"/mnt/jace_complete/Movies/Movie.Title.1999.GRP/m.rar", 5⟩ 1 "boom"
      (by decide) (by decide) rfl (by decide)⟩

/-- C5 counterexample: on a parseable series folder with an empty file tree
(strategy None) processed in performing mode against an empty filesystem,
the result is status error with reason `"no_media_found"` (not the claim's
`"no media found"`), and — contradicting the claim's "no destination
directory is created for that item" — the effect trace contains the creation
of the destination directory, which `process_series_folder` ensures before
media discovery. -/
theorem c5_counterexample :
    (process_series_folder ⟨"/mnt/jace_complete/Series/Show.Name.2020.S01E02.TEST", []⟩
        true wBoom fsEmpty).1.status = "error" ∧
    (process_series_folder ⟨"/mnt/jace_complete/Series/Show.Name.2020.S01E02.TEST", []⟩
        true wBoom fsEmpty).1.reason = some "no_media_found" ∧
    Effect.fsMkdir "/mnt/jace_media/Video/TV/Show Name (2020)/Season 01" ∈
      (process_series_folder ⟨"/mnt/jace_complete/Series/Show.Name.2020.S01E02.TEST", []⟩
        true wBoom fsEmpty).2.2 := by
  decide

/-- C5 (amended): when a parseable series folder's content strategy is None,
the processor fails with reason `"no_media_found"`, no move and no
retirement happens; however the destination directory derived from the
parsed name has already been ensured before media discovery, so the only
mutation the item may perform is creating that directory. -/
theorem c5_no_media_found (folder : Folder) (run : Bool) (w : World) (fs : FS)
    (parsed : ParsedTV) (hp : parse_tv (fileName folder.path) = some parsed)
    (hs : chooseStrategy folder.files = ContentStrategy.noMedia) :
    (process_series_folder folder run w fs).1.status = "error" ∧
    (process_series_folder folder run w fs).1.reason = some "no_media_found" ∧
    (process_series_folder folder run w fs).1.recycled_to = none ∧
    (∀ s d, Effect.fsMove s d ∉ (process_series_folder folder run w fs).2.2) ∧
    (∀ e ∈ (process_series_folder folder run w fs).2.2, isMutation e = true →
      e = Effect.fsMkdir (seriesDestDir parsed)) := by
  unfold process_series_folder
  refine ⟨by simp [hp, hs], by simp [hp, hs], by simp [hp, hs], ?_, ?_⟩
  · intro s d
    simp [hp, hs, List.mem_append, ensure_dir_no_fsMove]
  · intro e he hmut
    simp only [hp, hs] at he
    simp only [List.mem_append, List.mem_singleton] at he
    rcases he with he | rfl
    · exact ensure_dir_mut_mkdir _ run fs e he hmut
    · simp [isMutation] at hmut

theorem c5_witness :
    (process_series_folder ⟨"/mnt/jace_complete/Series/Show.Name.2021.S03E04.TEST", []⟩
        true wBoom fsEmpty).1.status = "error" ∧
    (process_series_folder ⟨"/mnt/jace_complete/Series/Show.Name.2021.S03E04.TEST", []⟩
        true wBoom fsEmpty).1.reason = some "no_media_found" ∧
    (process_series_folder ⟨"/mnt/jace_complete/Series/Show.Name.2021.S03E04.TEST", []⟩
        true wBoom fsEmpty).1.recycled_to = none ∧
    (∀ s d, Effect.fsMove s d ∉
      (process_series_folder ⟨"/mnt/jace_complete/Series/Show.Name.2021.S03E04.TEST", []⟩
        true wBoom fsEmpty).2.2) ∧
    (∀ e ∈ (process_series_folder ⟨"/mnt/jace_complete/Series/Show.Name.2021.S03E04.TEST", []⟩
        true wBoom fsEmpty).2.2, isMutation e = true →
      e = Effect.fsMkdir (seriesDestDir ⟨"Show Name", some 2021, 3, 4⟩)) :=
  c5_no_media_found ⟨"/mnt/jace_complete/Series/Show.Name.2021.S03E04.TEST", []⟩ true wBoom
    fsEmpty ⟨"Show Name", some 2021, 3, 4⟩ (by decide) (by decide)

/-- C9: for a folder whose name matches neither the TV nor the movie prefix
pattern, each parser returns `none` (total functions, no exception), the
item result has status error with reason `"unparseable"`, and no filesystem
change of any kind happens: the filesystem oracle is returned unchanged and
the whole effect trace is the single irregularity log line. -/
theorem c9_unparseable_no_effects (folder : Folder) (run : Bool) (w : World) (fs : FS)
    (htv : parse_tv (fileName folder.path) = none)
    (hmv : parse_movie (fileName folder.path) = none) :
    ((process_series_folder folder run w fs).1.status = "error" ∧
      (process_series_folder folder run w fs).1.reason = some "unparseable" ∧
      (process_series_folder folder run w fs).1.recycled_to = none ∧
      (process_series_folder folder run w fs).2.1 = fs ∧
      (process_series_folder folder run w fs).2.2 =
        [Effect.logLine ("IRREGULAR TV name (can\x27t parse): " ++ fileName folder.path)]) ∧
    ((process_movie_folder folder run w fs).1.status = "error" ∧
      (process_movie_folder folder run w fs).1.reason = some "unparseable" ∧
      (process_movie_folder folder run w fs).1.recycled_to = none ∧
      (process_movie_folder folder run w fs).2.1 = fs ∧
      (process_movie_folder folder run w fs).2.2 =
        [Effect.logLine ("IRREGULAR Movie name (can\x27t parse year): " ++
          fileName folder.path)]) := by
  constructor
  · unfold process_series_folder
    simp [htv]
  · unfold process_movie_folder
    simp [hmv]

theorem c9_witness :
    ((process_series_folder ⟨"/mnt/jace_complete/Series/randomthing", []⟩ false wBoom
        fsEmpty).1.status = "error" ∧
      (process_series_folder ⟨"/mnt/jace_complete/Series/randomthing", []⟩ false wBoom
        fsEmpty).1.reason = some "unparseable" ∧
      (process_series_folder ⟨"/mnt/jace_complete/Series/randomthing", []⟩ false wBoom
        fsEmpty).1.recycled_to = none ∧
      (process_series_folder ⟨"/mnt/jace_complete/Series/randomthing", []⟩ false wBoom
        fsEmpty).2.1 = fsEmpty ∧
      (process_series_folder ⟨"/mnt/jace_complete/Series/randomthing", []⟩ false wBoom
        fsEmpty).2.2 =
        [Effect.logLine ("IRREGULAR TV name (can\x27t parse): " ++ fileName
          "/mnt/jace_complete/Series/randomthing")]) ∧
    ((process_movie_folder ⟨"/mnt/jace_complete/Series/randomthing", []⟩ false wBoom
        fsEmpty).1.status = "error" ∧
      (process_movie_folder ⟨"/mnt/jace_complete/Series/randomthing", []⟩ false wBoom
        fsEmpty).1.reason = some "unparseable" ∧
      (process_movie_folder ⟨"/mnt/jace_complete/Series/randomthing", []⟩ false wBoom
        fsEmpty).1.recycled_to = none ∧
      (process_movie_folder ⟨"/mnt/jace_complete/Series/randomthing", []⟩ false wBoom
        fsEmpty).2.1 = fsEmpty ∧
      (process_movie_folder ⟨"/mnt/jace_complete/Series/randomthing", []⟩ false wBoom
        fsEmpty).2.2 =
        [Effect.logLine ("IRREGULAR Movie name (can\x27t parse year): " ++ fileName
          "/mnt/jace_complete/Series/randomthing")]) :=
  c9_unparseable_no_effects ⟨"/mnt/jace_complete/Series/randomthing", []⟩ false wBoom fsEmpty
    (by decide) (by decide)

theorem moveAllRenamed_moves (extless : List MFile) (destDir release : String) (fs : FS) :
    ∀ f ∈ extless, Effect.fsMove f.path (destDir ++ "/" ++ (release ++ ".mkv")) ∈
      (moveAllRenamed extless destDir release true fs).2 := by
  induction extless generalizing fs with
  | nil => intro f hf; exact absurd hf (List.not_mem_nil f)
  | cons g rest ih =>
    intro f hf
    unfold moveAllRenamed
    simp only [List.mem_append]
    rcases List.mem_cons.mp hf with rfl | hf'
    · exact Or.inl (move_path_moves _ _ _)
    · exact Or.inr (ih _ f hf')

/-- C10 (implicit behavior): when the LargeUnlabeledFiles strategy is
selected with a list of two or more files, every file of the list is moved
to the same destination path `dest_dir/<releaseName>.mkv` — the computed
target name does not depend on which file is being moved, so later moves
target a path already used by earlier ones. -/
theorem c10_renamed_same_target (folderS folderM : Folder) (w : World) (fs : FS) :
    (∀ parsed l, parse_tv (fileName folderS.path) = some parsed →
      chooseStrategy folderS.files = ContentStrategy.largeUnlabeled l → 2 ≤ l.length →
      ∀ f ∈ l, Effect.fsMove f.path
          (seriesDestDir parsed ++ "/" ++ (fileName folderS.path ++ ".mkv")) ∈
        (process_series_folder folderS true w fs).2.2) ∧
    (∀ parsed l, parse_movie (fileName folderM.path) = some parsed →
      chooseStrategy folderM.files = ContentStrategy.largeUnlabeled l → 2 ≤ l.length →
      ∀ f ∈ l, Effect.fsMove f.path
          (movieDestDir parsed ++ "/" ++ (fileName folderM.path ++ ".mkv")) ∈
        (process_movie_folder folderM true w fs).2.2) := by
  constructor
  · intro parsed l hp hs hlen f hf
    have hne : l.isEmpty = false := by
      cases l with
      | nil => simp at hlen
      | cons a t => rfl
    unfold process_series_folder
    simp only [hp, hs, hne, Bool.false_eq_true, if_false]
    exact List.mem_append.mpr (Or.inl (List.mem_append.mpr
      (Or.inr (moveAllRenamed_moves l _ _ _ f hf))))
  · intro parsed l hp hs hlen f hf
    have hne : l.isEmpty = false := by
      cases l with
      | nil => simp at hlen
      | cons a t => rfl
    unfold process_movie_folder
    simp only [hp, hs, hne, Bool.false_eq_true, if_false]
    exact List.mem_append.mpr (Or.inl (List.mem_append.mpr
      (Or.inr (moveAllRenamed_moves l _ _ _ f hf))))

theorem c10_witness :
    (∀ f ∈ [(⟨"/mnt/jace_complete/Series/Show.Name.2020.S01E02.X/blob1", 104857600⟩ : MFile),
            ⟨"/mnt/jace_complete/Series/Show.Name.2020.S01E02.X/blob2", 204857600⟩],
      Effect.fsMove f.path
          (seriesDestDir ⟨"Show Name", some 2020, 1, 2⟩ ++ "/" ++
            (fileName "/mnt/jace_complete/Series/Show.Name.2020.S01E02.X" ++ ".mkv")) ∈
        (process_series_folder ⟨"/mnt/jace_complete/Series/Show.Name.2020.S01E02.X",
          [⟨"/mnt/jace_complete/Series/Show.Name.2020.S01E02.X/blob1", 104857600⟩,
           ⟨"/mnt/jace_complete/Series/Show.Name.2020.S01E02.X/blob2", 204857600⟩]⟩
          true wBoom fsEmpty).2.2) ∧
    (∀ f ∈ [(⟨"/mnt/jace_complete/Movies/Movie.Title.1999.X/blob1", 104857600⟩ : MFile),
            ⟨"/mnt/jace_complete/Movies/Movie.Title.1999.X/blob2", 204857600⟩],
      Effect.fsMove f.path
          (movieDestDir ⟨"Movie Title", 1999⟩ ++ "/" ++
            (fileName "/mnt/jace_complete/Movies/Movie.Title.1999.X" ++ ".mkv")) ∈
        (process_movie_folder ⟨"/mnt/jace_complete/Movies/Movie.Title.1999.X",
          [⟨"/mnt/jace_complete/Movies/Movie.Title.1999.X/blob1", 104857600⟩,
           ⟨"/mnt/jace_complete/Movies/Movie.Title.1999.X/blob2", 204857600⟩]⟩
          true wBoom fsEmpty).2.2) :=
  ⟨(c10_renamed_same_target ⟨"/mnt/jace_complete/Series/Show.Name.2020.S01E02.X",
      [⟨"/mnt/jace_complete/Series/Show.Name.2020.S01E02.X/blob1", 104857600⟩,
       ⟨"/mnt/jace_complete/Series/Show.Name.2020.S01E02.X/blob2", 204857600⟩]⟩
      ⟨"/mnt/jace_complete/Movies/Movie.Title.1999.X",
      [⟨"/mnt/jace_complete/Movies/Movie.Title.1999.X/blob1", 104857600⟩,
       ⟨"/mnt/jace_complete/Movies/Movie.Title.1999.X/blob2", 204857600⟩]⟩ wBoom fsEmpty).1
      ⟨"Show Name", some 2020, 1, 2⟩ _ (by decide) (by decide) (by decide),
   (c10_renamed_same_target ⟨"/mnt/jace_complete/Series/Show.Name.2020.S01E02.X",
      [⟨"/mnt/jace_complete/Series/Show.Name.2020.S01E02.X/blob1", 104857600⟩,
       ⟨"/mnt/jace_complete/Series/Show.Name.2020.S01E02.X/blob2", 204857600⟩]⟩
      ⟨"/mnt/jace_complete/Movies/Movie.Title.1999.X",
      [⟨"/mnt/jace_complete/Movies/Movie.Title.1999.X/blob1", 104857600⟩,
       ⟨"/mnt/jace_complete/Movies/Movie.Title.1999.X/blob2", 204857600⟩]⟩ wBoom fsEmpty).2
      ⟨"Movie Title", 1999⟩ _ (by decide) (by decide) (by decide)⟩

/-! ## Recycle-destination deconfliction (C6) -/

theorem deconflictList_found (ex : String → Bool) (bp : String) (j : Nat) :
    ∀ l1 l2 : List Nat, (∀ k ∈ l1, ex (bp ++ "." ++ toString k) = true) →
      ex (bp ++ "." ++ toString j) = false →
      deconflictList ex bp (l1 ++ j :: l2) = some (bp ++ "." ++ toString j) := by
  intro l1
  induction l1 with
  | nil =>
    intro l2 _ hf
    unfold deconflictList
    simp [hf]
  | cons a t ih =>
    intro l2 hall hf
    have ha : ex (bp ++ "." ++ toString a) = true := hall a (List.mem_cons_self a t)
    unfold deconflictList
    simp only [List.cons_append, ha, if_true]
    exact ih l2 (fun k hk => hall k (List.mem_cons_of_mem a hk)) hf

theorem deconflictList_none (ex : String → Bool) (bp : String) :
    ∀ l : List Nat, (∀ k ∈ l, ex (bp ++ "." ++ toString k) = true) →
      deconflictList ex bp l = none := by
  intro l
  induction l with
  | nil => intro _; rfl
  | cons a t ih =>
    intro hall
    unfold deconflictList
    simp [hall a (List.mem_cons_self a t),
          ih (fun k hk => hall k (List.mem_cons_of_mem a hk))]

set_option maxRecDepth 8000 in
/-- C6 counterexample: with every path existing (pathological collision),
`unique_recycle_dest` returns the pid-suffixed fallback without an existence
check, so the returned destination coincides with an existing entry of the
date folder — the claim's unconditional uniqueness fails. -/
theorem c6_counterexample :
    unique_recycle_dest "Collide" wBoom fsAll =
      recycleBase wBoom "Collide" ++ "." ++ toString wBoom.pid ∧
    pathExists fsAll (unique_recycle_dest "Collide" wBoom fsAll) = true := by
  constructor
  · decide
  · rfl

/-- C6 (amended): the computed recycle destination is
`<recycleRoot>/<date>/<name>`; when that path exists, suffixes `.1` … `.999`
are tried in order and the first non-existing candidate is returned; if all
999 collide, the destination suffixed with the process identifier is
returned — but that fallback is not checked for existence, so the result is
distinct from the existing entries only in the first two cases. -/
theorem c6_recycle_dest (name : String) (w : World) (fs : FS) :
    (pathExists fs (recycleBase w name) = false →
      unique_recycle_dest name w fs = recycleBase w name) ∧
    (∀ j, pathExists fs (recycleBase w name) = true → 1 ≤ j → j ≤ 999 →
      pathExists fs (recycleBase w name ++ "." ++ toString j) = false →
      (∀ k, 1 ≤ k → k < j →
        pathExists fs (recycleBase w name ++ "." ++ toString k) = true) →
      unique_recycle_dest name w fs = recycleBase w name ++ "." ++ toString j) ∧
    (pathExists fs (recycleBase w name) = true →
      (∀ j, 1 ≤ j → j ≤ 999 →
        pathExists fs (recycleBase w name ++ "." ++ toString j) = true) →
      unique_recycle_dest name w fs = recycleBase w name ++ "." ++ toString w.pid) := by
  refine ⟨?_, ?_, ?_⟩
  · intro h
    simp only [recycleBase] at h ⊢
    unfold unique_recycle_dest
    simp [h]
  · intro j hb h1 h999 hfree hprev
    simp only [recycleBase, pathExists] at hb hfree hprev ⊢
    unfold unique_recycle_dest
    simp only [pathExists, hb, Bool.true_eq_false, if_false]
    have e1 : 1 + (j - 1) = j := by omega
    have e2 : 999 - j + 1 + (j - 1) = 999 := by omega
    have h3 := List.range'_append_1 1 (j - 1) (999 - j + 1)
    rw [e1, e2] at h3
    have hsplit : List.range' 1 999 =
        List.range' 1 (j - 1) ++ j :: List.range' (j + 1) (999 - j) := by
      rw [← h3, List.range'_succ]
    rw [hsplit, deconflictList_found fs.existing _ j _ _ ?_ hfree]
    intro k hk
    rcases List.mem_range'_1.mp hk with ⟨hk1, hk2⟩
    exact hprev k hk1 (by omega)
  · intro hb hall
    simp only [recycleBase, pathExists] at hb hall ⊢
    unfold unique_recycle_dest
    simp only [pathExists, hb, Bool.true_eq_false, if_false]
    rw [deconflictList_none fs.existing _ _ ?_]
    intro k hk
    rcases List.mem_range'_1.mp hk with ⟨hk1, hk2⟩
    exact hall k hk1 (by omega)

theorem c6_witness :
    unique_recycle_dest "FreshItem" wBoom fsEmpty = recycleBase wBoom "FreshItem" ∧
    unique_recycle_dest "Busy" wBoom ⟨fun p => p == recycleBase wBoom "Busy"⟩ =
      recycleBase wBoom "Busy" ++ "." ++ toString 1 ∧
    unique_recycle_dest "Jammed" wBoom fsAll =
      recycleBase wBoom "Jammed" ++ "." ++ toString wBoom.pid :=
  ⟨(c6_recycle_dest "FreshItem" wBoom fsEmpty).1 rfl,
   (c6_recycle_dest "Busy" wBoom ⟨fun p => p == recycleBase wBoom "Busy"⟩).2.1 1
     (by decide) (by decide) (by decide) (by decide)
     (fun k h1 h2 => absurd (Nat.lt_of_lt_of_le h2 h1) (Nat.lt_irrefl k)),
   (c6_recycle_dest "Jammed" wBoom fsAll).2.2 rfl (fun j _ _ => rfl)⟩

/-! ## Soundness of the regex embedding (C7, C8) -/

theorem seTail_sound {cs : List Char} {s : Char} {sd : List Char} {e : Char}
    {ed rem : List Char} (h : seTail cs = some (s, sd, e, ed, rem)) :
    cs = s :: (sd ++ e :: (ed ++ rem)) ∧
    sd.length = 2 ∧ ed.length = 2 ∧
    (∀ c ∈ sd, isDigitChar c = true) ∧ (∀ c ∈ ed, isDigitChar c = true) ∧
    (s = 'S' ∨ s = 's') ∧ (e = 'E' ∨ e = 'e') ∧ wordBoundary rem = true := by
  unfold seTail at h
  split at h
  · split at h
    · rename_i c1 d1 d2 c2 d3 d4 rem' hcond
      simp only [Option.some.injEq, Prod.mk.injEq] at h
      obtain ⟨rfl, rfl, rfl, rfl, rfl⟩ := h
      simp only [Bool.and_eq_true, Bool.or_eq_true, decide_eq_true_eq] at hcond
      obtain ⟨⟨⟨⟨⟨⟨hS, h1⟩, h2⟩, hE⟩, h3⟩, h4⟩, hwb⟩ := hcond
      exact ⟨rfl, rfl, rfl, by simp [h1, h2], by simp [h3, h4], hS, hE, hwb⟩
    · exact absurd h (by simp)
  · exact absurd h (by simp)

theorem tvTailYear_sound {cs : List Char} {y : Option (List Char)} {s : Char}
    {sd : List Char} {e : Char} {ed rem : List Char}
    (h : tvTailYear cs = some (y, s, sd, e, ed, rem)) :
    ∃ yl, y = some yl ∧ cs = yl ++ '.' :: (s :: (sd ++ e :: (ed ++ rem))) ∧
      (∃ y1 y2 y3 y4, yl = [y1, y2, y3, y4] ∧ yearOk y1 y2 y3 y4 = true) ∧
      sd.length = 2 ∧ ed.length = 2 ∧
      (∀ c ∈ sd, isDigitChar c = true) ∧ (∀ c ∈ ed, isDigitChar c = true) := by
  unfold tvTailYear at h
  split at h
  · split at h
    · split at h
      · rename_i y1 y2 y3 y4 d rest2 hcond fo s' sd' e' ed' rem' hse
        simp only [Option.some.injEq, Prod.mk.injEq] at h
        obtain ⟨rfl, rfl, rfl, rfl, rfl, rfl⟩ := h
        simp only [Bool.and_eq_true, decide_eq_true_eq] at hcond
        obtain ⟨rfl, hyear⟩ := hcond
        obtain ⟨hshape, h2, h3, h4, h5, _, _, _⟩ := seTail_sound hse
        subst hshape
        exact ⟨[y1, y2, y3, y4], rfl, rfl, ⟨y1, y2, y3, y4, rfl, hyear⟩, h2, h3, h4, h5⟩
      · exact absurd h (by simp)
    · exact absurd h (by simp)
  · exact absurd h (by simp)

theorem tvTail_sound {cs : List Char} {y : Option (List Char)} {s : Char}
    {sd : List Char} {e : Char} {ed rem : List Char}
    (h : tvTail cs = some (y, s, sd, e, ed, rem)) :
    cs = '.' :: (yearChunk y ++ s :: (sd ++ e :: (ed ++ rem))) ∧
    sd.length = 2 ∧ ed.length = 2 ∧
    (∀ c ∈ sd, isDigitChar c = true) ∧ (∀ c ∈ ed, isDigitChar c = true) ∧
    (∀ yl, y = some yl →
      ∃ y1 y2 y3 y4, yl = [y1, y2, y3, y4] ∧ yearOk y1 y2 y3 y4 = true) := by
  unfold tvTail at h
  split at h
  · split at h
    · rename_i d rest1 hd
      subst hd
      split at h
      · rename_i g hy
        rw [Option.some.injEq] at h
        subst h
        obtain ⟨yl, hyl, hshape, hyear, h2, h3, h4, h5⟩ := tvTailYear_sound hy
        subst hyl hshape
        refine ⟨by simp [yearChunk], h2, h3, h4, h5, ?_⟩
        intro yl' hyl'
        rw [Option.some.injEq] at hyl'
        subst hyl'
        exact hyear
      · split at h
        · rename_i s' sd' e' ed' rem' hse
          simp only [Option.some.injEq, Prod.mk.injEq] at h
          obtain ⟨rfl, rfl, rfl, rfl, rfl, rfl⟩ := h
          obtain ⟨hshape, h2, h3, h4, h5, _, _, _⟩ := seTail_sound hse
          subst hshape
          exact ⟨by simp [yearChunk], h2, h3, h4, h5, by simp⟩
        · exact absurd h (by simp)
    · exact absurd h (by simp)
  · exact absurd h (by simp)

theorem tvScan_sound : ∀ (cs : List Char) (g : TVGroups), tvScan cs = some g →
    cs = g.showG ++ '.' ::
      (yearChunk g.yearG ++ g.sChar :: (g.seasonG ++ g.eChar :: (g.epG ++ g.restG))) ∧
    g.showG ≠ [] ∧ g.seasonG.length = 2 ∧ g.epG.length = 2 ∧
    (∀ c ∈ g.seasonG, isDigitChar c = true) ∧ (∀ c ∈ g.epG, isDigitChar c = true) ∧
    (∀ yl, g.yearG = some yl →
      ∃ y1 y2 y3 y4, yl = [y1, y2, y3, y4] ∧ yearOk y1 y2 y3 y4 = true) := by
  intro cs
  induction cs with
  | nil => intro g h; exact absurd h (by simp [tvScan])
  | cons c rest ih =>
    intro g h
    unfold tvScan at h
    split at h
    · exact absurd h (by simp)
    · split at h
      · rename_i y s sd e ed rem htail
        rw [Option.some.injEq] at h
        subst h
        obtain ⟨hshape, h2, h3, h4, h5, h6⟩ := tvTail_sound htail
        subst hshape
        exact ⟨rfl, by simp, h2, h3, h4, h5, h6⟩
      · split at h
        · rename_i g' hrec
          rw [Option.some.injEq] at h
          subst h
          obtain ⟨hshape, hne, h2, h3, h4, h5, h6⟩ := ih g' hrec
          refine ⟨?_, by simp, h2, h3, h4, h5, h6⟩
          simp only [List.cons_append]
          rw [← hshape]
        · exact absurd h (by simp)

theorem digitVal_le_of_isDigitChar {c : Char} (h : isDigitChar c = true) : digitVal c ≤ 9 := by
  have hm : c ∈ ['0', '1', '2', '3', '4', '5', '6', '7', '8', '9'] := by
    simp only [isDigitChar, Bool.or_eq_true, decide_eq_true_eq] at h
    simp only [List.mem_cons, List.not_mem_nil, or_false]
    tauto
  fin_cases hm <;> decide

theorem yearOk_bounds {y1 y2 y3 y4 : Char} (h : yearOk y1 y2 y3 y4 = true) :
    1900 ≤ digitsVal [y1, y2, y3, y4] ∧ digitsVal [y1, y2, y3, y4] ≤ 2099 := by
  simp only [yearOk, Bool.and_eq_true, Bool.or_eq_true, decide_eq_true_eq] at h
  obtain ⟨⟨h12, h3⟩, h4⟩ := h
  have v3 := digitVal_le_of_isDigitChar h3
  have v4 := digitVal_le_of_isDigitChar h4
  rcases h12 with ⟨rfl, rfl⟩ | ⟨rfl, rfl⟩
  · have e1 : digitVal '1' = 1 := by decide
    have e9 : digitVal '9' = 9 := by decide
    simp only [digitsVal, List.foldl, e1, e9]
    omega
  · have e2 : digitVal '2' = 2 := by decide
    have e0 : digitVal '0' = 0 := by decide
    simp only [digitsVal, List.foldl, e2, e0]
    omega

/-- C7: for every release name matched by the TV pattern, `parse_tv` returns
the captured show segment normalized by replacing every literal period with
a space, collapsing whitespace runs and trimming, together with the optional
year — always in [1900, 2099] — and the season and episode integers;
the remainder after the matched prefix does not enter the result (witnessed
concretely: the parse of the example with and without its trailing tags is
the same). -/
theorem c7_parse_tv (release : String) :
    (∀ g : TVGroups, tvScan release.data = some g →
      parse_tv release = some
        { show_ := String.mk (stripChars (collapseWS (replaceDots g.showG))),
          year := g.yearG.map digitsVal,
          season := digitsVal g.seasonG,
          episode := digitsVal g.epG } ∧
      ∀ yl, g.yearG = some yl → 1900 ≤ digitsVal yl ∧ digitsVal yl ≤ 2099) ∧
    parse_tv "Show.Name.2020.S01E02.1080p.WEB.x264-GRP" =
      some { show_ := "Show Name", year := some 2020, season := 1, episode := 2 } ∧
    parse_tv "Show.Name.2020.S01E02" =
      some { show_ := "Show Name", year := some 2020, season := 1, episode := 2 } := by
  refine ⟨?_, by decide, by decide⟩
  intro g hg
  constructor
  · unfold parse_tv
    rw [hg]
    rfl
  · intro yl hyl
    obtain ⟨_, _, _, _, _, _, hyear⟩ := tvScan_sound release.data g hg
    obtain ⟨y1, y2, y3, y4, rfl, hok⟩ := hyear yl hyl
    exact yearOk_bounds hok

theorem c7_witness :
    parse_tv "Show.Name.2020.S01E02.1080p.WEB.x264-GRP" =
      some { show_ := String.mk (stripChars (collapseWS (replaceDots "Show.Name".data))),
             year := (some "2020".data).map digitsVal,
             season := digitsVal "01".data,
             episode := digitsVal "02".data } ∧
    ∀ yl, (some "2020".data : Option (List Char)) = some yl →
      1900 ≤ digitsVal yl ∧ digitsVal yl ≤ 2099 :=
  (c7_parse_tv "Show.Name.2020.S01E02.1080p.WEB.x264-GRP").1
    ⟨"Show.Name".data, some "2020".data, 'S', "01".data, 'E', "02".data,
     ".1080p.WEB.x264-GRP".data⟩ (by decide)

/-- C8: whenever `parse_tv` succeeds, the season and episode fields were
each matched from exactly two ASCII digits occurring verbatim in the source
name (the decomposition equation places them between the case-variable `S`
and `E` markers), and are parsed with `int()` as the (non-negative, by the
`Nat` codomain) values of those digit pairs. -/
theorem c8_two_digit_groups (release : String) (p : ParsedTV)
    (h : parse_tv release = some p) :
    ∃ g : TVGroups, tvScan release.data = some g ∧
      release.data = g.showG ++ '.' ::
        (yearChunk g.yearG ++ g.sChar :: (g.seasonG ++ g.eChar :: (g.epG ++ g.restG))) ∧
      g.seasonG.length = 2 ∧ (∀ c ∈ g.seasonG, isDigitChar c = true) ∧
      g.epG.length = 2 ∧ (∀ c ∈ g.epG, isDigitChar c = true) ∧
      p.season = digitsVal g.seasonG ∧ p.episode = digitsVal g.epG := by
  have hex : ∃ g, tvScan release.data = some g := by
    unfold parse_tv at h
    cases htv : tvScan release.data with
    | none => rw [htv] at h; exact absurd h (by simp)
    | some g => exact ⟨g, rfl⟩
  obtain ⟨g, hg⟩ := hex
  unfold parse_tv at h
  rw [hg, Option.some.injEq] at h
  subst h
  obtain ⟨hshape, _, hs2, he2, hsd, hed, _⟩ := tvScan_sound release.data g hg
  exact ⟨g, hg, hshape, hs2, hsd, he2, hed, rfl, rfl⟩

theorem c8_witness :
    ∃ g : TVGroups, tvScan "Show.S05E09-tag".data = some g ∧
      "Show.S05E09-tag".data = g.showG ++ '.' ::
        (yearChunk g.yearG ++ g.sChar :: (g.seasonG ++ g.eChar :: (g.epG ++ g.restG))) ∧
      g.seasonG.length = 2 ∧ (∀ c ∈ g.seasonG, isDigitChar c = true) ∧
      g.epG.length = 2 ∧ (∀ c ∈ g.epG, isDigitChar c = true) ∧
      (ParsedTV.mk "Show" none 5 9).season = digitsVal g.seasonG ∧
      (ParsedTV.mk "Show" none 5 9).episode = digitsVal g.epG :=
  c8_two_digit_groups "Show.S05E09-tag" ⟨"Show", none, 5, 9⟩ (by decide)

end ProcessDownloads
